import Mathlib

/-!
Verification of the calibre-mcp Zed extension (src/src/lib.rs).

The source defines a fieldless struct `CalibreEbookManagerExtension` and a
single method `context_server_command(&mut self, id, _project)` that matches
the server identifier against the one recognized literal `"calibre-mcp"`:
on a match it returns `Ok(Command { command: "uv",
args: ["run", "calibre-mcp"], env: Default::default() })`, otherwise
`Err(format!("Unknown server: {}", id.0))`.

The shallow embedding below models the Rust method as a pure function with
explicit state passing for the `&mut self` receiver: it returns the result
together with the (unchanged, fieldless) extension value.  The project
context is an opaque pass-through value, modelled by a type parameter.  The
Rust `match` on a string literal pattern plus a wildcard arm is exact byte
equality, embedded as an `if id = "calibre-mcp"` test.
-/

namespace CalibreMCP

/-- Launch descriptor, mirroring `zed::Command`: executable name, ordered
argument list, and environment variable overrides (name/value pairs). -/
structure Command where
  command : String
  args : List String
  env : List (String × String)
deriving DecidableEq

/-- The extension value, mirroring the fieldless Rust struct
`CalibreEbookManagerExtension`. -/
structure CalibreEbookManagerExtension where
deriving DecidableEq

/-- Embedding of `Extension::context_server_command` from src/src/lib.rs.
The `&mut self` receiver becomes explicit state passing: the method body
never touches `self`, so the second component of the returned pair is the
incoming extension value.  The opaque, uninspected `_project` parameter is
a value of an arbitrary type `P`. -/
def context_server_command {P : Type} ( self : CalibreEbookManagerExtension)
    (id : String) (_project : P) :
    Except String Command × CalibreEbookManagerExtension :=
  (if id = "calibre-mcp" then
      Except.ok ⟨"uv", ["run", "calibre-mcp"], []⟩
    else
      Except.error ("Unknown server: " ++ id),
   self)

/-- Helper: on the recognized identifier the result is the fixed `Command`. -/
theorem context_server_command_match {P : Type}
    (s : CalibreEbookManagerExtension) (p : P) :
    (context_server_command s "calibre-mcp" p).1 =
      Except.ok ⟨"uv", ["run", "calibre-mcp"], []⟩ := rfl

/-- Helper: on any other identifier the result is the formatted error. -/
theorem context_server_command_no_match {P : Type}
    (s : CalibreEbookManagerExtension) (p : P) (id : String)
    (h : id ≠ "calibre-mcp") :
    (context_server_command s id p).1 =
      Except.error ("Unknown server: " ++ id) := by
  simp [context_server_command, h]

/-- Helper: appending to a fixed string on the left is injective. -/
theorem string_append_left_cancel {a b c : String}
    (h : a ++ b = a ++ c) : b = c := by
  cases a with
  | mk da =>
    cases b with
    | mk db =>
      cases c with
      | mk dc =>
        have hd : da ++ db = da ++ dc := congrArg String.data h
        exact congrArg String.mk (List.append_cancel_left hd)

/-- Two strings are case variants when lowering every character of each
yields the same character list. -/
def caseVariant (a b : String) : Prop :=
  a.data.map Char.toLower = b.data.map Char.toLower

instance (a b : String) : Decidable (caseVariant a b) := by
  unfold caseVariant
  infer_instance

/-- Claim C1: for the identifier "calibre-mcp", under any extension state and
any project context, `context_server_command` succeeds with command exactly
"uv", args exactly `["run", "calibre-mcp"]`, and an empty environment. -/
theorem resolve_calibre_mcp {P : Type}
    (s : CalibreEbookManagerExtension) (p : P) :
    (context_server_command s "calibre-mcp" p).1 =
      Except.ok ⟨"uv", ["run", "calibre-mcp"], []⟩ := rfl

/-- Claim C2: resolution succeeds iff the identifier is exactly
"calibre-mcp"; on every other identifier it returns the error whose message
is "Unknown server: " followed by the supplied identifier verbatim. -/
theorem resolve_success_iff {P : Type}
    (s : CalibreEbookManagerExtension) (p : P) (id : String) :
    ((∃ c, (context_server_command s id p).1 = Except.ok c) ↔
        id = "calibre-mcp") ∧
    (id ≠ "calibre-mcp" →
      (context_server_command s id p).1 =
        Except.error ("Unknown server: " ++ id)) := by
  constructor
  · constructor
    · rintro ⟨c, hc⟩
      by_contra h
      rw [context_server_command_no_match s p id h] at hc
      exact Except.noConfusion hc
    · rintro rfl
      exact ⟨⟨"uv", ["run", "calibre-mcp"], []⟩, rfl⟩
  · exact context_server_command_no_match s p id

/-- Witness for C2 at the concrete identifier "unknown-server": the result
is the failure "Unknown server: unknown-server". -/
theorem resolve_success_iff_witness :
    (context_server_command ⟨⟩ "unknown-server" ()).1 =
      Except.error "Unknown server: unknown-server" :=
  (resolve_success_iff ⟨⟩ () "unknown-server").2 (by decide)

/-- Claim C3: the result is a pure function of the identifier alone — it is
independent of the extension state and of the project context, even across
project contexts of different types, so any two calls with the same
identifier yield identical results. -/
theorem resolve_pure_in_identifier {P Q : Type}
    (s t : CalibreEbookManagerExtension) (p : P) (q : Q) (id : String) :
    (context_server_command s id p).1 = (context_server_command t id q).1 :=
  rfl

/-- Claim C4: matching is exact, case-sensitive string equality — every
case-altered variant of "calibre-mcp" (such as "CALIBRE-MCP" or
"Calibre-Mcp") that is not byte-for-byte equal to it resolves to failure,
not success. -/
theorem resolve_case_sensitive {P : Type}
    (s : CalibreEbookManagerExtension) (p : P) (id : String)
    (hvar : caseVariant id "calibre-mcp") (hne : id ≠ "calibre-mcp") :
    (context_server_command s id p).1 =
      Except.error ("Unknown server: " ++ id) :=
  context_server_command_no_match s p id hne

/-- Witness for C4 at the concrete case variant "CALIBRE-MCP". -/
theorem resolve_case_sensitive_witness :
    (context_server_command ⟨⟩ "CALIBRE-MCP" ()).1 =
      Except.error "Unknown server: CALIBRE-MCP" :=
  resolve_case_sensitive ⟨⟩ () "CALIBRE-MCP" (by decide) (by decide)

/-- Claim C5: the empty identifier resolves to failure with message exactly
"Unknown server: " (the fixed text followed by the empty identifier). -/
theorem resolve_empty_identifier {P : Type}
    (s : CalibreEbookManagerExtension) (p : P) :
    (context_server_command s "" p).1 =
      Except.error "Unknown server: " := rfl

/-- Claim C6: resolution is total — for every identifier it returns an
ordinary value, either a success carrying a `Command` or a recoverable
error carrying a message; there is no other outcome. -/
theorem resolve_total {P : Type}
    (s : CalibreEbookManagerExtension) (p : P) (id : String) :
    (∃ c, (context_server_command s id p).1 = Except.ok c) ∨
    (∃ m, (context_server_command s id p).1 = Except.error m) := by
  by_cases h : id = "calibre-mcp"
  · subst h
    exact Or.inl ⟨⟨"uv", ["run", "calibre-mcp"], []⟩, rfl⟩
  · exact Or.inr ⟨"Unknown server: " ++ id,
      context_server_command_no_match s p id h⟩

/-- Claim C7: no side effects — on every call, success or failure, the
extension state returned by the state-passing embedding is exactly the state
the call started from. -/
theorem resolve_no_side_effects {P : Type}
    (s : CalibreEbookManagerExtension) (p : P) (id : String) :
    (context_server_command s id p).2 = s := rfl

/-- Claim C8: whenever resolution succeeds, the argument list of the
returned command is exactly `["run", identifier]`, so its final element is
the supplied identifier itself. -/
theorem resolve_args_run_identifier {P : Type}
    (s : CalibreEbookManagerExtension) (p : P) (id : String) (c : Command)
    (h : (context_server_command s id p).1 = Except.ok c) :
    c.args = ["run", id] ∧ c.args.getLast? = some id := by
  by_cases hid : id = "calibre-mcp"
  · subst hid
    rw [context_server_command_match s p] at h
    cases h
    exact ⟨rfl, rfl⟩
  · rw [context_server_command_no_match s p id hid] at h
    exact Except.noConfusion h

/-- Witness for C8 at the concrete identifier "calibre-mcp". -/
theorem resolve_args_run_identifier_witness :
    (["run", "calibre-mcp"] : List String) = ["run", "calibre-mcp"] ∧
    (["run", "calibre-mcp"] : List String).getLast? = some "calibre-mcp" :=
  resolve_args_run_identifier ⟨⟩ () "calibre-mcp"
    ⟨"uv", ["run", "calibre-mcp"], []⟩ rfl

/-- Claim C9: error messages are injective in the identifier — any two
error results have equal messages exactly when the identifiers were equal,
and each message is "Unknown server: " followed by the identifier, so the
identifier is recovered by stripping that fixed sixteen-character text. -/
theorem resolve_error_injective {P Q : Type}
    (s t : CalibreEbookManagerExtension) (p : P) (q : Q)
    (id₁ id₂ m₁ m₂ : String)
    (h₁ : (context_server_command s id₁ p).1 = Except.error m₁)
    (h₂ : (context_server_command t id₂ q).1 = Except.error m₂) :
    (m₁ = m₂ ↔ id₁ = id₂) ∧ m₁ = "Unknown server: " ++ id₁ := by
  have e₁ : m₁ = "Unknown server: " ++ id₁ := by
    by_cases hid : id₁ = "calibre-mcp"
    · subst hid
      rw [context_server_command_match s p] at h₁
      exact Except.noConfusion h₁
    · rw [context_server_command_no_match s p id₁ hid] at h₁
      exact (Except.error.injEq _ _ ▸ h₁).symm
  have e₂ : m₂ = "Unknown server: " ++ id₂ := by
    by_cases hid : id₂ = "calibre-mcp"
    · subst hid
      rw [context_server_command_match t q] at h₂
      exact Except.noConfusion h₂
    · rw [context_server_command_no_match t q id₂ hid] at h₂
      exact (Except.error.injEq _ _ ▸ h₂).symm
  refine ⟨⟨fun hm => ?_, fun hi => ?_⟩, e₁⟩
  · exact string_append_left_cancel (e₁ ▸ e₂ ▸ hm)
  · rw [e₁, e₂, hi]

/-- Witness for C9 at the concrete identifiers "alpha" and "beta". -/
theorem resolve_error_injective_witness :
    (("Unknown server: alpha" : String) = "Unknown server: beta" ↔
      ("alpha" : String) = "beta") ∧
    ("Unknown server: alpha" : String) = "Unknown server: " ++ "alpha" :=
  resolve_error_injective ⟨⟩ ⟨⟩ () () "alpha" "beta"
    "Unknown server: alpha" "Unknown server: beta" rfl rfl

end CalibreMCP
